import Mathlib

/-!
Verification development for the school-management backend (ocansey11/sms).

The definitions below are a shallow embedding of the authorization and
quiz-attempt code of the repository.  Entities are modelled as Lean
structures with Nat identifiers; database tables are lists of rows;
SQLAlchemy queries become List operations mirroring the filters the
source applies; fallible service operations return Except values whose
error constructors mirror the exceptions the source raises.

Sources embedded:
  app/db/models.py          (enums and row shapes)
  app/db/crud.py            (guardian lookups, CRUDQuizAttempt)
  app/api/routes/guardian.py (guardian authorization gate)
  app/services/class_service.py (QuizService, second definition, the one
                             in effect after Python class shadowing;
                             enroll_student_in_course)
  app/services/auth_service.py (assign_user_role)
Definitions whose doc comment starts with "Modelled from the spec:" stand
for repository functions that are called by the sources above but are
absent from the source tree.
-/

namespace SMS

/-! ## Enumerations (app/db/models.py) -/

/-- Guardian-child relationship status (models.GuardianStatus). -/
inductive GuardianStatus where
  | pending
  | accepted
  | rejected
deriving DecidableEq

/-- Quiz attempt status (models.AttemptStatus). -/
inductive AttemptStatus where
  | in_progress
  | completed
  | abandoned
  | paused
deriving DecidableEq

/-- Enrollment status (models.EnrollmentStatus). -/
inductive EnrollmentStatus where
  | active
  | completed
  | dropped
deriving DecidableEq

/-- Question types of the question bank (models.QuestionType). -/
inductive QuestionType where
  | mcq
  | essay
  | true_false
  | short_answer
deriving DecidableEq

/-! ## Guardian graph (models.GuardianChild, crud.py, routes/guardian.py) -/

/-- Row of the guardian_children table: the fields the authorization
code reads (models.GuardianChild). -/
structure GuardianChild where
  guardian_id : Nat
  student_id : Nat
  status : GuardianStatus
deriving DecidableEq

/-- Embedding of crud.get_guardian_student_relationship: selects the
GuardianStudent row matching guardian_id and student_id.  The query has
no condition on status. -/
def get_guardian_student_relationship (links : List GuardianChild)
    (guardian_id student_id : Nat) : Option GuardianChild :=
  links.find? (fun l => l.guardian_id == guardian_id && l.student_id == student_id)

/-- The access gate every guardian read route applies
(routes/guardian.py): the read is refused with 403 exactly when
get_guardian_student_relationship returns no row. -/
def guardian_read_authorized (links : List GuardianChild)
    (guardian_id student_id : Nat) : Bool :=
  (get_guardian_student_relationship links guardian_id student_id).isSome

/-- Embedding of crud.get_guardian_students: the students joined through
GuardianStudent rows with the given guardian_id, with no condition on
status. -/
def get_guardian_students (links : List GuardianChild) (guardian_id : Nat) :
    List Nat :=
  (links.filter (fun l => l.guardian_id == guardian_id)).map (fun l => l.student_id)

/-- The canView relation as the specification words it, for comparison
with the source's gate: true iff an accepted GuardianChild row exists
for the pair. -/
def canView_spec (links : List GuardianChild) (guardian_id student_id : Nat) : Bool :=
  links.any (fun l =>
    l.guardian_id == guardian_id && l.student_id == student_id && l.status == .accepted)

/-- C1, counterexample.  A single rejected link: the source's gate
authorizes the guardian read, the spec's canView refuses it, and the
children listing returns the student.  So a link whose status is
rejected does authorize access in the code. -/
theorem guardian_rejected_link_authorizes_cex :
    guardian_read_authorized [⟨1, 2, .rejected⟩] 1 2 = true ∧
    canView_spec [⟨1, 2, .rejected⟩] 1 2 = false ∧
    get_guardian_students [⟨1, 2, .rejected⟩] 1 = [2] := by
  decide

/-- C1, amended.  A guardian read operation on a student's data succeeds
iff some GuardianChild link for the pair exists, whatever its status,
and the children listing returns exactly the students linked by any
relationship of the guardian. -/
theorem guardian_access_iff_linked (links : List GuardianChild)
    (g s : Nat) :
    (guardian_read_authorized links g s = true ↔
      ∃ l, l ∈ links ∧ l.guardian_id = g ∧ l.student_id = s) ∧
    (s ∈ get_guardian_students links g ↔
      ∃ l, l ∈ links ∧ l.guardian_id = g ∧ l.student_id = s) := by
  constructor
  · simp only [guardian_read_authorized, get_guardian_student_relationship,
      List.find?_isSome, Bool.and_eq_true, beq_iff_eq, and_assoc]
  · simp only [get_guardian_students, List.mem_map, List.mem_filter, beq_iff_eq]
    constructor
    · rintro ⟨l, ⟨hl, hg⟩, hs⟩
      exact ⟨l, hl, hg, hs⟩
    · rintro ⟨l, hl, hg, hs⟩
      exact ⟨l, ⟨hl, hg⟩, hs⟩

/-! ## Question bank and grading (models.py, class_service.py) -/

/-- A Python value as the grading code handles it: submitted answers and
stored correct answers are integers (mcq and true_false indices) or
strings (short_answer), and a missing value is None. -/
inductive PyValue where
  | int : Int → PyValue
  | str : String → PyValue
  | none : PyValue
deriving DecidableEq

/-- Python str() as applied to the values above. -/
def PyValue.toStr : PyValue → String
  | .int n => toString n
  | .str s => s
  | .none => "None"

/-- Row of the question_bank table: the fields grading reads
(models.QuestionBank). -/
structure Question where
  id : Nat
  qtype : QuestionType
  correct_answer : PyValue
deriving DecidableEq

/-- Row of the quiz_questions link table with its joined question
(models.QuizQuestion; the service reads quiz_question.question). -/
structure QuizQuestion where
  quiz_id : Nat
  question_id : Nat
  points : Int
  question : Question
deriving DecidableEq

/-- Per-question grading of QuizService.submit_quiz_attempt: mcq and
true_false compare the submitted answer to correct_answer for equality;
short_answer compares str() of both, stripped and lowercased; essay is
never auto-scored. -/
def isCorrectAnswer (q : Question) (student_answer : PyValue) : Bool :=
  match q.qtype with
  | .mcq => student_answer == q.correct_answer
  | .true_false => student_answer == q.correct_answer
  | .short_answer =>
      student_answer.toStr.trim.toLower == q.correct_answer.toStr.trim.toLower
  | .essay => false

/-- One submitted answer: an entry of the answers list the student
posts, with its question_id and answer fields. -/
structure SubmittedAnswer where
  question_id : Nat
  answer : PyValue
deriving DecidableEq

/-- One entry of the graded_answers list the service builds. -/
structure GradedAnswer where
  question_id : Nat
  student_answer : PyValue
  correct_answer : PyValue
  is_correct : Bool
  points_earned : Int
  points_possible : Int
deriving DecidableEq

/-- Accumulator of the grading loop: total_points, earned_points and
graded_answers exactly as the service initializes them to 0, 0, []. -/
structure GradeAcc where
  total_points : Int
  earned_points : Int
  graded_answers : List GradedAnswer
deriving DecidableEq

/-- The graded_answers entry built for a matched quiz question. -/
def gradedAnswerOf (qq : QuizQuestion) (ans : SubmittedAnswer) : GradedAnswer :=
  let correct := isCorrectAnswer qq.question ans.answer
  { question_id := ans.question_id
    student_answer := ans.answer
    correct_answer := qq.question.correct_answer
    is_correct := correct
    points_earned := if correct then qq.points else 0
    points_possible := qq.points }

/-- The next() lookup of the grading loop: the first quiz question whose
question_id equals the submitted answer's question_id. -/
def matchedQuestion (quiz_questions : List QuizQuestion) (ans : SubmittedAnswer) :
    Option QuizQuestion :=
  quiz_questions.find? (fun qq => qq.question_id == ans.question_id)

/-- One iteration of the grading loop of submit_quiz_attempt: a
submitted answer matching no quiz question is skipped (continue);
otherwise the question's points are added to total_points, to
earned_points when correct, and a graded entry is appended. -/
def gradeOne (quiz_questions : List QuizQuestion) (acc : GradeAcc)
    (ans : SubmittedAnswer) : GradeAcc :=
  match matchedQuestion quiz_questions ans with
  | Option.none => acc
  | Option.some qq =>
      { total_points := acc.total_points + qq.points
        earned_points := acc.earned_points +
          (if isCorrectAnswer qq.question ans.answer then qq.points else 0)
        graded_answers := acc.graded_answers ++ [gradedAnswerOf qq ans] }

/-- The grading loop of QuizService.submit_quiz_attempt (second and
hence effective definition): a fold of gradeOne over the submitted
answers starting from 0, 0, []. -/
def gradeAttempt (quiz_questions : List QuizQuestion)
    (answers : List SubmittedAnswer) : GradeAcc :=
  answers.foldl (gradeOne quiz_questions) ⟨0, 0, []⟩

/-- Final percentage of submit_quiz_attempt: earned over total times
100 when total_points is positive, else 0. -/
def gradePercentage (earned total : Int) : Rat :=
  if total > 0 then (earned : Rat) / (total : Rat) * 100 else 0

/-! ## Quiz attempts (models.QuizAttempt, crud.CRUDQuizAttempt,
class_service.QuizService) -/

/-- Row of the quiz_attempts table: the fields the attempt engine reads
and writes (models.QuizAttempt). -/
structure QuizAttempt where
  id : Nat
  quiz_id : Nat
  student_id : Nat
  attempt_number : Nat
  started_at : Int
  finished_at : Option Int
  time_spent : Option Int
  status : AttemptStatus
  score : Option Int
  percentage : Option Rat
  answers : List GradedAnswer
deriving DecidableEq

/-- Patch record of schemas.QuizAttemptUpdate: every field optional. -/
structure QuizAttemptUpdate where
  answers : Option (List GradedAnswer)
  status : Option AttemptStatus
  finished_at : Option Int
  time_spent : Option Int
  score : Option Int
  percentage : Option Rat
deriving DecidableEq

/-- Modelled from the spec: crud.update_quiz_attempt is called by
QuizService.submit_quiz_attempt but is absent from app/db/crud.py.
Following the spec's repository contract (update applies a patch) and
CRUDBase.update (fields whose value is not None overwrite the row),
each field present in the patch overwrites the attempt's field. -/
def applyAttemptUpdate (a : QuizAttempt) (u : QuizAttemptUpdate) : QuizAttempt :=
  { a with
    answers := u.answers.getD a.answers
    status := u.status.getD a.status
    finished_at := match u.finished_at with
      | Option.some v => Option.some v
      | Option.none => a.finished_at
    time_spent := match u.time_spent with
      | Option.some v => Option.some v
      | Option.none => a.time_spent
    score := match u.score with
      | Option.some v => Option.some v
      | Option.none => a.score
    percentage := match u.percentage with
      | Option.some v => Option.some v
      | Option.none => a.percentage }

/-- Writing the updated row back to the quiz_attempts table. -/
def replaceAttempt (attempts : List QuizAttempt) (a : QuizAttempt) :
    List QuizAttempt :=
  attempts.map (fun x => if x.id == a.id then a else x)

/-- Embedding of crud.get_quiz_attempt_by_id (CRUDBase.get on the
quiz_attempts table). -/
def get_quiz_attempt_by_id (attempts : List QuizAttempt) (attempt_id : Nat) :
    Option QuizAttempt :=
  attempts.find? (fun a => a.id == attempt_id)

/-- Errors of QuizService.submit_quiz_attempt, mirroring the
SMSException codes it raises. -/
inductive SubmitError where
  | attemptNotFound
  | unauthorizedAttempt
  | attemptCompleted
deriving DecidableEq

/-- Embedding of QuizService.submit_quiz_attempt (second and hence
effective definition, class_service.py lines 659 and onward): look up
the attempt; 404 when missing; unauthorized when it belongs to another
student; already-completed when its status is not in_progress; otherwise
grade the submitted answers against the quiz's questions, and persist
answers, status completed, finished_at now, score and percentage.  The
update the service builds carries no time_spent value. -/
def submit_quiz_attempt (attempts : List QuizAttempt)
    (quiz_questions_of : Nat → List QuizQuestion)
    (attempt_id student_id : Nat) (answers : List SubmittedAnswer) (now : Int) :
    Except SubmitError (QuizAttempt × List QuizAttempt) :=
  match get_quiz_attempt_by_id attempts attempt_id with
  | Option.none => .error .attemptNotFound
  | Option.some attempt =>
    if attempt.student_id ≠ student_id then .error .unauthorizedAttempt
    else if attempt.status ≠ .in_progress then .error .attemptCompleted
    else
      let g := gradeAttempt (quiz_questions_of attempt.quiz_id) answers
      let update : QuizAttemptUpdate :=
        { answers := Option.some g.graded_answers
          status := Option.some .completed
          finished_at := Option.some now
          time_spent := Option.none
          score := Option.some g.earned_points
          percentage := Option.some (gradePercentage g.earned_points g.total_points) }
      let updated := applyAttemptUpdate attempt update
      .ok (updated, replaceAttempt attempts updated)

/-! ## Starting attempts (crud.CRUDQuizAttempt, class_service.py) -/

/-- Row of the quiz table: the fields start_quiz_attempt reads
(models.Quiz; published_at null means draft). -/
structure Quiz where
  id : Nat
  course_id : Nat
  published_at : Option Int
deriving DecidableEq

/-- Row of the student_enrolments table: the fields the services read
(models.StudentEnrollment; primary key is the student and course pair). -/
structure StudentEnrollment where
  student_id : Nat
  course_id : Nat
  status : EnrollmentStatus
deriving DecidableEq

/-- Modelled from the spec: crud.get_student_enrollment is called by
class_service.py but is absent from app/db/crud.py.  Per the spec's
repository contract it returns the enrollment row for the student and
course key, which the table's primary key makes unique. -/
def get_student_enrollment (enrollments : List StudentEnrollment)
    (student_id course_id : Nat) : Option StudentEnrollment :=
  enrollments.find? (fun e => e.student_id == student_id && e.course_id == course_id)

/-- Embedding of CRUDQuizAttempt.get_active_attempt: the attempt of the
student at the quiz whose status is in_progress, if any. -/
def get_active_attempt (attempts : List QuizAttempt)
    (student_id quiz_id : Nat) : Option QuizAttempt :=
  attempts.find? (fun a =>
    a.student_id == student_id && a.quiz_id == quiz_id && a.status == .in_progress)

/-- Embedding of CRUDQuizAttempt.create: counts the student's existing
attempts at the quiz, assigns attempt_number one more than that count,
and inserts the row; started_at takes the current time and status its
in_progress default (models.QuizAttempt column defaults). -/
def CRUDQuizAttempt.create (attempts : List QuizAttempt)
    (quiz_id student_id : Nat) (now : Int) (fresh_id : Nat) :
    QuizAttempt × List QuizAttempt :=
  let existing := attempts.filter (fun a =>
    a.student_id == student_id && a.quiz_id == quiz_id)
  let a : QuizAttempt :=
    { id := fresh_id
      quiz_id := quiz_id
      student_id := student_id
      attempt_number := existing.length + 1
      started_at := now
      finished_at := Option.none
      time_spent := Option.none
      status := .in_progress
      score := Option.none
      percentage := Option.none
      answers := [] }
  (a, attempts ++ [a])

/-- Errors of the effective QuizService.start_quiz_attempt, mirroring
the SMSException codes it raises. -/
inductive StartError where
  | quizNotFound
  | quizNotPublished
  | notEnrolled
deriving DecidableEq

/-- Embedding of QuizService.start_quiz_attempt (second and hence
effective definition, class_service.py lines 616 and onward): the quiz
must exist and be published, and the student's enrollment in its course
must exist with status active; then an attempt is created through
crud.create_quiz_attempt, which delegates to CRUDQuizAttempt.create.
This definition performs no check for an existing in_progress attempt;
only the shadowed first definition of the class did. -/
def start_quiz_attempt (quizzes : List Quiz)
    (enrollments : List StudentEnrollment) (attempts : List QuizAttempt)
    (quiz_id student_id : Nat) (now : Int) (fresh_id : Nat) :
    Except StartError (QuizAttempt × List QuizAttempt) :=
  match quizzes.find? (fun q => q.id == quiz_id) with
  | Option.none => .error .quizNotFound
  | Option.some quiz =>
    match quiz.published_at with
    | Option.none => .error .quizNotPublished
    | Option.some _ =>
      match get_student_enrollment enrollments student_id quiz.course_id with
      | Option.none => .error .notEnrolled
      | Option.some enrollment =>
        if enrollment.status ≠ .active then .error .notEnrolled
        else .ok (CRUDQuizAttempt.create attempts quiz_id student_id now fresh_id)

/-- An in_progress attempt of student 10 at quiz 1, for exercising the
start path while an attempt is already active. -/
def activeAttempt : QuizAttempt :=
  { id := 7, quiz_id := 1, student_id := 10, attempt_number := 1,
    started_at := 0, finished_at := Option.none, time_spent := Option.none,
    status := .in_progress, score := Option.none, percentage := Option.none,
    answers := [] }

/-- C2.  With quiz 1 published in course 5, student 10 actively
enrolled, and an in_progress attempt already stored (get_active_attempt
finds it), the effective start_quiz_attempt still succeeds and stores a
second attempt, leaving two in_progress attempts for the pair: the
in-progress check lives only in the shadowed first QuizService class and
never runs, so no ConflictError is raised. -/
theorem start_ignores_active_attempt :
    get_active_attempt [activeAttempt] 10 1 = Option.some activeAttempt ∧
    start_quiz_attempt [⟨1, 5, Option.some 20⟩] [⟨10, 5, .active⟩]
        [activeAttempt] 1 10 100 8 =
      .ok ({ id := 8, quiz_id := 1, student_id := 10, attempt_number := 2,
             started_at := 100, finished_at := Option.none,
             time_spent := Option.none, status := .in_progress,
             score := Option.none, percentage := Option.none, answers := [] },
           [activeAttempt,
            { id := 8, quiz_id := 1, student_id := 10, attempt_number := 2,
              started_at := 100, finished_at := Option.none,
              time_spent := Option.none, status := .in_progress,
              score := Option.none, percentage := Option.none, answers := [] }]) ∧
    ((start_quiz_attempt [⟨1, 5, Option.some 20⟩] [⟨10, 5, .active⟩]
        [activeAttempt] 1 10 100 8).toOption.map
      (fun r => (r.2.filter (fun a => a.status == .in_progress)).length))
      = Option.some 2 :=
  ⟨rfl, rfl, rfl⟩

/-! ## Grading characterization (claim C3) -/

/-- Grading as the specification words it, for comparison with the
source's loop: for each quiz question linked to the quiz, the student's
submitted answer is looked up by question id; a missing answer counts as
incorrect, contributing 0 points while the question's points still count
toward the total.  Returns total and earned points. -/
def gradeAttempt_spec (quiz_questions : List QuizQuestion)
    (answers : List SubmittedAnswer) : Int × Int :=
  quiz_questions.foldl (fun acc qq =>
    let correct :=
      match answers.find? (fun a => a.question_id == qq.question_id) with
      | Option.none => false
      | Option.some a => isCorrectAnswer qq.question a.answer
    (acc.1 + qq.points, acc.2 + if correct then qq.points else 0)) (0, 0)

/-- First question of the two-question quiz used below: mcq, correct
index 1, worth 1 point. -/
def mcqQuestionOne : Question := ⟨1, .mcq, .int 1⟩

/-- Second question of that quiz: mcq, correct index 0, worth 1 point. -/
def mcqQuestionTwo : Question := ⟨2, .mcq, .int 0⟩

/-- The quiz_questions rows of the two-question quiz. -/
def twoQuestionQuiz : List QuizQuestion :=
  [⟨1, 1, 1, mcqQuestionOne⟩, ⟨1, 2, 1, mcqQuestionTwo⟩]

/-- C3, counterexample.  On the two-question quiz with only question 1
answered (correctly), the code's grading loop runs over the submitted
answers, so unanswered question 2 contributes to neither score nor
total: the code yields total 1, score 1, percentage 100, while the
claim's grading (every linked question, missing answer incorrect) yields
total 2, score 1, percentage 50. -/
theorem grading_skips_unanswered_cex :
    (gradeAttempt twoQuestionQuiz [⟨1, .int 1⟩]).total_points = 1 ∧
    (gradeAttempt twoQuestionQuiz [⟨1, .int 1⟩]).earned_points = 1 ∧
    gradePercentage 1 1 = 100 ∧
    gradeAttempt_spec twoQuestionQuiz [⟨1, .int 1⟩] = (2, 1) ∧
    gradePercentage 1 2 = 50 ∧
    (100 : Rat) ≠ 50 := by
  refine ⟨rfl, rfl, ?_, rfl, ?_, by norm_num⟩
  · show (if (0 : Int) < 1 then ((1 : Int) : Rat) / ((1 : Int) : Rat) * 100 else 0) = 100
    norm_num
  · show (if (0 : Int) < 2 then ((1 : Int) : Rat) / ((2 : Int) : Rat) * 100 else 0) = 50
    norm_num

/-- Closed form of the grading loop: the graded entries are exactly the
submitted answers that match some quiz question, each paired with the
first matching question, in submission order. -/
def gradedList (quiz_questions : List QuizQuestion)
    (answers : List SubmittedAnswer) : List GradedAnswer :=
  answers.filterMap (fun ans =>
    (matchedQuestion quiz_questions ans).map (fun qq => gradedAnswerOf qq ans))

/-- Unfolding lemma for the grading fold from an arbitrary accumulator. -/
theorem gradeFold_eq (qqs : List QuizQuestion) (answers : List SubmittedAnswer)
    (acc : GradeAcc) :
    answers.foldl (gradeOne qqs) acc =
      { total_points := acc.total_points +
          ((gradedList qqs answers).map GradedAnswer.points_possible).sum
        earned_points := acc.earned_points +
          ((gradedList qqs answers).map GradedAnswer.points_earned).sum
        graded_answers := acc.graded_answers ++ gradedList qqs answers } := by
  induction answers generalizing acc with
  | nil => simp [gradedList]
  | cons a as ih =>
      rw [List.foldl_cons, ih]
      cases h : matchedQuestion qqs a with
      | none =>
          simp [gradeOne, h, gradedList, List.filterMap_cons, gradedList] at ih ⊢
      | some qq =>
          simp only [gradeOne, h, gradedList, List.filterMap_cons, Option.map_some]
          simp [gradedAnswerOf, add_assoc, List.append_assoc, gradedList]

/-- C3, amended.  The effective submit grades the submitted answers, not
the linked questions: the graded entries are exactly the answers
matching some quiz question; total_possible_points is the sum of the
matched questions' points and score the sum of points earned on them;
and a quiz question none of the submitted answers refers to contributes
nothing to the grade at all. -/
theorem grading_characterization (qqs : List QuizQuestion)
    (answers : List SubmittedAnswer) :
    (gradeAttempt qqs answers).graded_answers = gradedList qqs answers ∧
    (gradeAttempt qqs answers).total_points =
      ((gradedList qqs answers).map GradedAnswer.points_possible).sum ∧
    (gradeAttempt qqs answers).earned_points =
      ((gradedList qqs answers).map GradedAnswer.points_earned).sum ∧
    (∀ qq' : QuizQuestion,
      (∀ ans ∈ answers, ans.question_id ≠ qq'.question_id) →
      gradeAttempt (qq' :: qqs) answers = gradeAttempt qqs answers) := by
  refine ⟨?_, ?_, ?_, ?_⟩
  · rw [gradeAttempt, gradeFold_eq]; simp
  · rw [gradeAttempt, gradeFold_eq]; simp
  · rw [gradeAttempt, gradeFold_eq]; simp
  · intro qq' hne
    unfold gradeAttempt
    have key : ∀ ans : List SubmittedAnswer,
        (∀ a ∈ ans, a.question_id ≠ qq'.question_id) → ∀ acc : GradeAcc,
        ans.foldl (gradeOne (qq' :: qqs)) acc = ans.foldl (gradeOne qqs) acc := by
      intro ans
      induction ans with
      | nil => intro _ _; rfl
      | cons a as ih =>
          intro h acc
          have hpred : ¬ ((qq'.question_id == a.question_id) = true) := by
            simp only [beq_iff_eq]
            exact fun hh => h a (List.mem_cons_self a as) hh.symm
          have ha : matchedQuestion (qq' :: qqs) a = matchedQuestion qqs a := by
            unfold matchedQuestion
            exact List.find?_cons_of_neg qqs hpred
          have hone : gradeOne (qq' :: qqs) acc a = gradeOne qqs acc a := by
            unfold gradeOne; rw [ha]
          rw [List.foldl_cons, List.foldl_cons, hone]
          exact ih (fun x hx => h x (List.mem_cons_of_mem a hx)) _
    exact key answers hne _

/-- C3, witness: the characterization applied to the two-question quiz,
showing that prepending a question no submitted answer refers to leaves
the grade unchanged. -/
theorem grading_characterization_witness :
    gradeAttempt (⟨1, 2, 1, mcqQuestionTwo⟩ :: twoQuestionQuiz) [⟨1, .int 1⟩] =
      gradeAttempt twoQuestionQuiz [⟨1, .int 1⟩] :=
  (grading_characterization twoQuestionQuiz [⟨1, .int 1⟩]).2.2.2
    ⟨1, 2, 1, mcqQuestionTwo⟩ (by decide)

/-! ## Submit preconditions and postconditions (claims C4, C5) -/

/-- C4.  Submitting is guarded in order: an attempt that exists and
belongs to the calling student but is not in_progress makes submit fail
with the already-completed error before any grading or write happens
(the returned error carries no updated store, so score, percentage,
answers and status of the stored attempt stay as they were); and submit
returns ok only when the attempt exists, belongs to the calling student,
and is in_progress. -/
theorem submit_requires_in_progress (attempts : List QuizAttempt)
    (quiz_questions_of : Nat → List QuizQuestion)
    (attempt_id student_id : Nat) (answers : List SubmittedAnswer) (now : Int) :
    (∀ a : QuizAttempt,
      get_quiz_attempt_by_id attempts attempt_id = Option.some a →
      a.student_id = student_id → a.status ≠ .in_progress →
      submit_quiz_attempt attempts quiz_questions_of attempt_id student_id
        answers now = .error .attemptCompleted) ∧
    (∀ r, submit_quiz_attempt attempts quiz_questions_of attempt_id student_id
        answers now = .ok r →
      ∃ a : QuizAttempt,
        get_quiz_attempt_by_id attempts attempt_id = Option.some a ∧
        a.student_id = student_id ∧ a.status = .in_progress) := by
  constructor
  · intro a ha hown hst
    simp only [submit_quiz_attempt, ha]
    rw [if_neg (fun hc => hc hown), if_pos hst]
  · intro r hr
    cases ha : get_quiz_attempt_by_id attempts attempt_id with
    | none =>
        simp only [submit_quiz_attempt, ha] at hr
        exact Except.noConfusion hr
    | some a =>
        refine ⟨a, rfl, ?_⟩
        by_cases hown : a.student_id = student_id
        · by_cases hst : a.status = .in_progress
          · exact ⟨hown, hst⟩
          · simp only [submit_quiz_attempt, ha] at hr
            rw [if_neg (fun hc => hc hown), if_pos hst] at hr
            exact absurd hr (by simp)
        · simp only [submit_quiz_attempt, ha] at hr
          rw [if_pos hown] at hr
          exact absurd hr (by simp)

/-- A completed attempt of student 10 at quiz 1 with its grade stored. -/
def completedAttempt : QuizAttempt :=
  { id := 3, quiz_id := 1, student_id := 10, attempt_number := 1,
    started_at := 0, finished_at := Option.some 50, time_spent := Option.none,
    status := .completed, score := Option.some 1, percentage := Option.some 100,
    answers := [] }

/-- C4, witness: a second submit on the already completed attempt fails
with the already-completed error. -/
theorem submit_requires_in_progress_witness :
    submit_quiz_attempt [completedAttempt] (fun _ => []) 3 10 [] 60 =
      .error .attemptCompleted :=
  (submit_requires_in_progress [completedAttempt] (fun _ => []) 3 10 [] 60).1
    completedAttempt rfl rfl (by decide)

/-- The single-question quiz used for the submit postcondition
scenarios: one mcq question worth 2 points, correct index 1. -/
def oneQuestionQuiz : List QuizQuestion := [⟨1, 6, 2, ⟨6, .mcq, .int 1⟩⟩]

/-- An in_progress attempt of student 10 at quiz 1, started at time 0. -/
def runningAttempt : QuizAttempt :=
  { id := 4, quiz_id := 1, student_id := 10, attempt_number := 1,
    started_at := 0, finished_at := Option.none, time_spent := Option.none,
    status := .in_progress, score := Option.none, percentage := Option.none,
    answers := [] }

/-- C5, counterexample.  Submitting the running attempt at time 30 sets
finished_at to 30 but leaves time_spent unset: the update the service
builds carries answers, status, finished_at, score and percentage and no
time_spent, so time_spent is not 30 - 0 = 30 seconds as claimed. -/
theorem submit_time_spent_unset_cex :
    ((submit_quiz_attempt [runningAttempt] (fun _ => oneQuestionQuiz) 4 10
        [⟨6, .int 1⟩] 30).toOption.map (fun r => r.1.finished_at))
      = Option.some (Option.some 30) ∧
    ((submit_quiz_attempt [runningAttempt] (fun _ => oneQuestionQuiz) 4 10
        [⟨6, .int 1⟩] 30).toOption.map (fun r => r.1.time_spent))
      = Option.some Option.none ∧
    (Option.none : Option Int) ≠ Option.some ((30 : Int) - 0) :=
  ⟨rfl, rfl, by simp⟩

/-- C5, amended.  A successful submit of an in-progress attempt sets
finished_at to the submission time and status to completed, persists the
per-question breakdown as the attempt's answer log together with score
and percentage, and writes the row back to the store — but it leaves
time_spent as it was (unset), computing no finished_at minus started_at
duration. -/
theorem submit_success_postconditions (attempts : List QuizAttempt)
    (quiz_questions_of : Nat → List QuizQuestion)
    (attempt_id student_id : Nat) (answers : List SubmittedAnswer) (now : Int)
    (a : QuizAttempt)
    (ha : get_quiz_attempt_by_id attempts attempt_id = Option.some a)
    (hown : a.student_id = student_id) (hst : a.status = .in_progress) :
    ∃ a' : QuizAttempt,
      submit_quiz_attempt attempts quiz_questions_of attempt_id student_id
        answers now = .ok (a', replaceAttempt attempts a') ∧
      a'.finished_at = Option.some now ∧
      a'.status = .completed ∧
      a'.time_spent = a.time_spent ∧
      a'.answers = (gradeAttempt (quiz_questions_of a.quiz_id) answers).graded_answers ∧
      a'.score = Option.some
        (gradeAttempt (quiz_questions_of a.quiz_id) answers).earned_points ∧
      a'.percentage = Option.some
        (gradePercentage
          (gradeAttempt (quiz_questions_of a.quiz_id) answers).earned_points
          (gradeAttempt (quiz_questions_of a.quiz_id) answers).total_points) ∧
      a'.started_at = a.started_at ∧
      a'.id = a.id ∧ a'.quiz_id = a.quiz_id ∧ a'.student_id = a.student_id := by
  refine ⟨applyAttemptUpdate a
    { answers := Option.some
        (gradeAttempt (quiz_questions_of a.quiz_id) answers).graded_answers
      status := Option.some .completed
      finished_at := Option.some now
      time_spent := Option.none
      score := Option.some
        (gradeAttempt (quiz_questions_of a.quiz_id) answers).earned_points
      percentage := Option.some
        (gradePercentage
          (gradeAttempt (quiz_questions_of a.quiz_id) answers).earned_points
          (gradeAttempt (quiz_questions_of a.quiz_id) answers).total_points) },
    ?_, ?_⟩
  · simp only [submit_quiz_attempt, ha]
    rw [if_neg (fun hc => hc hown), if_neg (fun hc => hc hst)]
  · simp [applyAttemptUpdate]

/-- C5, witness: the postconditions at the running attempt submitted at
time 30 with the correct answer to the one-question quiz. -/
theorem submit_success_postconditions_witness :
    ∃ a' : QuizAttempt,
      submit_quiz_attempt [runningAttempt] (fun _ => oneQuestionQuiz) 4 10
        [⟨6, .int 1⟩] 30 = .ok (a', replaceAttempt [runningAttempt] a') ∧
      a'.finished_at = Option.some 30 ∧
      a'.status = .completed ∧
      a'.time_spent = runningAttempt.time_spent ∧
      a'.answers = (gradeAttempt (oneQuestionQuiz) [⟨6, .int 1⟩]).graded_answers ∧
      a'.score = Option.some
        (gradeAttempt (oneQuestionQuiz) [⟨6, .int 1⟩]).earned_points ∧
      a'.percentage = Option.some
        (gradePercentage (gradeAttempt (oneQuestionQuiz) [⟨6, .int 1⟩]).earned_points
          (gradeAttempt (oneQuestionQuiz) [⟨6, .int 1⟩]).total_points) ∧
      a'.started_at = runningAttempt.started_at ∧
      a'.id = runningAttempt.id ∧ a'.quiz_id = runningAttempt.quiz_id ∧
      a'.student_id = runningAttempt.student_id :=
  submit_success_postconditions [runningAttempt] (fun _ => oneQuestionQuiz) 4 10
    [⟨6, .int 1⟩] 30 runningAttempt rfl rfl rfl

/-! ## Attempt numbering (claim C6) -/

/-- Quiz table for the three-cycle scenario: quiz 1, course 5,
published. -/
def cycleQuizzes : List Quiz := [⟨1, 5, Option.some 0⟩]

/-- Enrollment table for the three-cycle scenario: student 10 active in
course 5. -/
def cycleEnrollments : List StudentEnrollment := [⟨10, 5, .active⟩]

/-- One start-to-terminal cycle of student 10 at quiz 1: start an
attempt, then submit it (reaching the terminal completed status);
returns the attempt_number the start assigned and the resulting store. -/
def cycleStep (s : List QuizAttempt) (now : Int) (fresh_id : Nat) :
    Option (Nat × List QuizAttempt) :=
  match start_quiz_attempt cycleQuizzes cycleEnrollments s 1 10 now fresh_id with
  | .error _ => Option.none
  | .ok (a, s') =>
    match submit_quiz_attempt s' (fun _ => []) a.id 10 [] (now + 5) with
    | .error _ => Option.none
    | .ok (_, s'') => Option.some (a.attempt_number, s'')

/-- The attempt numbers of three successive start-to-terminal cycles,
starting from an empty attempt table. -/
def threeCycleNumbers : Option (List Nat) :=
  match cycleStep [] 0 100 with
  | Option.none => Option.none
  | Option.some (n1, s1) =>
    match cycleStep s1 10 101 with
    | Option.none => Option.none
    | Option.some (n2, s2) =>
      match cycleStep s2 20 102 with
      | Option.none => Option.none
      | Option.some (n3, _) => Option.some [n1, n2, n3]

/-- C6.  Every created attempt gets attempt_number equal to the count of
the student's prior attempts at the quiz plus one, started_at equal to
the current time, status in_progress, and is appended to the table; and
three successive start-to-terminal cycles for the same student and quiz
produce attempt numbers 1, 2, 3 in order. -/
theorem attempt_numbering :
    (∀ (attempts : List QuizAttempt) (quiz_id student_id : Nat) (now : Int)
        (fresh_id : Nat),
      (CRUDQuizAttempt.create attempts quiz_id student_id now fresh_id).1.attempt_number
        = (attempts.filter (fun a =>
            a.student_id == student_id && a.quiz_id == quiz_id)).length + 1 ∧
      (CRUDQuizAttempt.create attempts quiz_id student_id now fresh_id).1.started_at = now ∧
      (CRUDQuizAttempt.create attempts quiz_id student_id now fresh_id).1.status
        = .in_progress ∧
      (CRUDQuizAttempt.create attempts quiz_id student_id now fresh_id).2
        = attempts ++
          [(CRUDQuizAttempt.create attempts quiz_id student_id now fresh_id).1]) ∧
    threeCycleNumbers = Option.some [1, 2, 3] := by
  refine ⟨fun attempts quiz_id student_id now fresh_id => ⟨rfl, rfl, rfl, rfl⟩, rfl⟩

/-! ## Enrollment (claim C7) -/

/-- Row of the course table: the fields enrollment reads
(models.Course). -/
structure Course where
  id : Nat
  organization_id : Option Nat
deriving DecidableEq

/-- Errors of QuizService.enroll_student_in_course, mirroring the
SMSException codes it raises. -/
inductive EnrollError where
  | courseNotFound
  | studentNotFound
  | permissionDenied
  | alreadyEnrolled
deriving DecidableEq

/-- Modelled from the spec: crud.update_student_enrollment is called by
enroll_student_in_course but is absent from app/db/crud.py.  Per the
spec's repository contract it patches the enrollment row for the
student and course key; here only its status is patched. -/
def update_student_enrollment (enrollments : List StudentEnrollment)
    (student_id course_id : Nat) (status : EnrollmentStatus) :
    List StudentEnrollment :=
  enrollments.map (fun e =>
    if e.student_id == student_id && e.course_id == course_id then
      { e with status := status }
    else e)

/-- Embedding of QuizService.enroll_student_in_course
(class_service.py lines 310 and onward): the course must exist, the
student profile lookup and the enroller's permission check must pass
(both collaborators are absent from app/db/crud.py, so their outcomes
are inputs here); then, when an enrollment for the pair exists with
status active, the call fails with the already-enrolled conflict; when a
non-active enrollment exists it is reactivated in place; otherwise a new
active enrollment is created. -/
def enroll_student_in_course (courses : List Course)
    (enrollments : List StudentEnrollment)
    (student_found has_permission : Bool) (student_id course_id : Nat) :
    Except EnrollError (StudentEnrollment × List StudentEnrollment) :=
  match courses.find? (fun c => c.id == course_id) with
  | Option.none => .error .courseNotFound
  | Option.some _ =>
    if !student_found then .error .studentNotFound
    else if !has_permission then .error .permissionDenied
    else
      match get_student_enrollment enrollments student_id course_id with
      | Option.some e =>
          if e.status = .active then .error .alreadyEnrolled
          else
            .ok ({ e with status := .active },
              update_student_enrollment enrollments student_id course_id .active)
      | Option.none =>
          .ok (⟨student_id, course_id, .active⟩,
            enrollments ++ [⟨student_id, course_id, .active⟩])

/-- Key uniqueness of the student_enrolments table: its primary key is
the student and course pair, so no two rows share both. -/
def uniqueEnrollmentKeys (l : List StudentEnrollment) : Prop :=
  l.Pairwise (fun a b => a.student_id ≠ b.student_id ∨ a.course_id ≠ b.course_id)

/-- At most one active enrollment per student and course pair. -/
def atMostOneActivePerPair (l : List StudentEnrollment) : Prop :=
  l.Pairwise (fun a b => a.status = .active → b.status = .active →
    a.student_id ≠ b.student_id ∨ a.course_id ≠ b.course_id)

/-- C7.  With the course present and the profile and permission checks
passing: an existing active enrollment for the pair makes enroll fail
with the already-enrolled conflict; an existing dropped or completed
enrollment is reactivated in place, returning an active record with the
same student and course key; with no existing enrollment a fresh active
record is created; and when the table's keys are unique (its primary
key), every successful enroll preserves key uniqueness and hence at most
one active enrollment per pair. -/
theorem enroll_conflict_and_reactivate (courses : List Course)
    (enrollments : List StudentEnrollment) (student_id course_id : Nat)
    (c : Course)
    (hc : courses.find? (fun x => x.id == course_id) = Option.some c) :
    (∀ e, get_student_enrollment enrollments student_id course_id = Option.some e →
      e.status = .active →
      enroll_student_in_course courses enrollments true true student_id course_id
        = .error .alreadyEnrolled) ∧
    (∀ e, get_student_enrollment enrollments student_id course_id = Option.some e →
      e.status ≠ .active →
      enroll_student_in_course courses enrollments true true student_id course_id
        = .ok ({ e with status := .active },
            update_student_enrollment enrollments student_id course_id .active) ∧
      e.student_id = student_id ∧ e.course_id = course_id) ∧
    (get_student_enrollment enrollments student_id course_id = Option.none →
      enroll_student_in_course courses enrollments true true student_id course_id
        = .ok (⟨student_id, course_id, .active⟩,
            enrollments ++ [⟨student_id, course_id, .active⟩])) ∧
    (∀ e' l', uniqueEnrollmentKeys enrollments →
      enroll_student_in_course courses enrollments true true student_id course_id
        = .ok (e', l') →
      uniqueEnrollmentKeys l' ∧ atMostOneActivePerPair l') := by
  have keyfacts : ∀ e : StudentEnrollment,
      get_student_enrollment enrollments student_id course_id = Option.some e →
      e.student_id = student_id ∧ e.course_id = course_id := by
    intro e he
    have hp := List.find?_some he
    simpa [Bool.and_eq_true, beq_iff_eq] using hp
  refine ⟨?_, ?_, ?_, ?_⟩
  · intro e he hact
    simp [enroll_student_in_course, hc, he, hact]
  · intro e he hnact
    refine ⟨?_, keyfacts e he⟩
    simp [enroll_student_in_course, hc, he, hnact]
  · intro hnone
    simp [enroll_student_in_course, hc, hnone]
  · intro e' l' huniq hok
    have step : uniqueEnrollmentKeys l' := by
      cases hen : get_student_enrollment enrollments student_id course_id with
      | some e =>
          by_cases hact : e.status = .active
          · simp [enroll_student_in_course, hc, hen, hact] at hok
          · simp only [enroll_student_in_course, hc, hen, Bool.not_true,
              Bool.false_eq_true, if_false, if_neg hact, Except.ok.injEq,
              Prod.mk.injEq] at hok
            obtain ⟨-, hl⟩ := hok
            subst hl
            have hkey : ∀ x : StudentEnrollment,
                ((if x.student_id == student_id && x.course_id == course_id then
                    { x with status := EnrollmentStatus.active }
                  else x).student_id = x.student_id) ∧
                ((if x.student_id == student_id && x.course_id == course_id then
                    { x with status := EnrollmentStatus.active }
                  else x).course_id = x.course_id) := by
              intro x
              by_cases hx : (x.student_id == student_id && x.course_id == course_id) = true
              · simp [hx]
              · simp [hx]
            rw [uniqueEnrollmentKeys, update_student_enrollment, List.pairwise_map]
            refine List.Pairwise.imp ?_ huniq
            intro a b hab
            rcases hab with h1 | h1
            · exact Or.inl (by rw [(hkey a).1, (hkey b).1]; exact h1)
            · exact Or.inr (by rw [(hkey a).2, (hkey b).2]; exact h1)
      | none =>
          simp only [enroll_student_in_course, hc, hen, Bool.not_true,
            Bool.false_eq_true, if_false, Except.ok.injEq, Prod.mk.injEq] at hok
          obtain ⟨-, hl⟩ := hok
          subst hl
          rw [uniqueEnrollmentKeys, List.pairwise_append]
          refine ⟨huniq, List.pairwise_singleton _ _, ?_⟩
          intro a ha b hb
          have hb' : b = (⟨student_id, course_id, .active⟩ : StudentEnrollment) := by
            simpa using hb
          subst hb'
          have := List.find?_eq_none.mp hen a ha
          simp only [Bool.and_eq_true, beq_iff_eq, not_and_or] at this
          exact this
    exact ⟨step, step.imp (fun h _ _ => h)⟩

/-- C7, witness: re-enrolling student 10 in course 5 after a dropped
enrollment reactivates the same row to active. -/
theorem enroll_conflict_and_reactivate_witness :
    enroll_student_in_course [⟨5, Option.none⟩] [⟨10, 5, .dropped⟩] true true 10 5
      = .ok (⟨10, 5, .active⟩,
          update_student_enrollment [⟨10, 5, .dropped⟩] 10 5 .active) ∧
    (10 : Nat) = 10 ∧ (5 : Nat) = 5 :=
  (enroll_conflict_and_reactivate [⟨5, Option.none⟩] [⟨10, 5, .dropped⟩] 10 5
    ⟨5, Option.none⟩ rfl).2.1 ⟨10, 5, .dropped⟩ rfl (by decide)

/-! ## Role assignments (models.UserRole, auth_service.py) -/

/-- Row of the user_roles table: the fields the role registry reads
(models.UserRole). -/
structure UserRole where
  user_id : Nat
  role : String
  organization_id : Option Nat
  solo_teacher_id : Option Nat
deriving DecidableEq

/-- The row filter of the role-membership query: same user, same role,
and exactly the queried organization scope. -/
def matchesTriple (user_id : Nat) (role : String)
    (organization_id : Option Nat) (r : UserRole) : Bool :=
  r.user_id == user_id && r.role == role && r.organization_id == organization_id

/-- Modelled from the spec: crud.user_role.user_has_role is called by
auth_service.py and auth_service_local.py but no CRUDUserRole exists in
app/db/crud.py.  Per the spec's wording for hasRole, the scope
comparison is exact match on the organization scope, a null scope
matching only a null scope. -/
def user_has_role (roles : List UserRole) (user_id : Nat) (role : String)
    (organization_id : Option Nat) : Bool :=
  roles.any (matchesTriple user_id role organization_id)

/-- The conflict raised for a duplicate role grant
(ConflictException in auth_service.py). -/
inductive RoleConflict where
  | conflict
deriving DecidableEq

/-- Embedding of AuthService.assign_user_role: when user_has_role finds
the user already holding the role in the scope, the grant fails with the
conflict; otherwise the new assignment row is stored. -/
def assign_user_role (roles : List UserRole) (user_id : Nat) (role : String)
    (organization_id : Option Nat) (solo_teacher_id : Option Nat) :
    Except RoleConflict (UserRole × List UserRole) :=
  if user_has_role roles user_id role organization_id then .error .conflict
  else
    .ok (⟨user_id, role, organization_id, solo_teacher_id⟩,
      roles ++ [⟨user_id, role, organization_id, solo_teacher_id⟩])

/-- C8.  Granting a role the user already holds in the same scope fails
with the conflict; and starting from a table without the triple,
granting succeeds, granting the same triple again fails, and exactly one
stored assignment matches the triple. -/
theorem grant_role_uniqueness (roles : List UserRole) (user_id : Nat)
    (role : String) (organization_id : Option Nat)
    (solo_teacher_id : Option Nat) :
    (user_has_role roles user_id role organization_id = true →
      assign_user_role roles user_id role organization_id solo_teacher_id
        = .error .conflict) ∧
    (user_has_role roles user_id role organization_id = false →
      assign_user_role roles user_id role organization_id solo_teacher_id
        = .ok (⟨user_id, role, organization_id, solo_teacher_id⟩,
            roles ++ [(⟨user_id, role, organization_id, solo_teacher_id⟩ : UserRole)]) ∧
      assign_user_role
          (roles ++ [(⟨user_id, role, organization_id, solo_teacher_id⟩ : UserRole)])
          user_id role organization_id solo_teacher_id = .error .conflict ∧
      ((roles ++ [(⟨user_id, role, organization_id, solo_teacher_id⟩ : UserRole)]).filter
          (matchesTriple user_id role organization_id)).length = 1) := by
  constructor
  · intro h
    simp [assign_user_role, h]
  · intro h
    have hall : ∀ r ∈ roles,
        ¬matchesTriple user_id role organization_id r = true := by
      have h' := h
      rw [user_has_role] at h'
      exact List.any_eq_false.mp h'
    have hself : matchesTriple user_id role organization_id
        (⟨user_id, role, organization_id, solo_teacher_id⟩ : UserRole) = true := by
      simp [matchesTriple]
    refine ⟨by simp [assign_user_role, h], ?_, ?_⟩
    · have hnew : user_has_role
          (roles ++ [(⟨user_id, role, organization_id, solo_teacher_id⟩ : UserRole)])
          user_id role organization_id = true := by
        rw [user_has_role, List.any_append]
        simp [hself]
      simp [assign_user_role, hnew]
    · rw [List.filter_append, List.filter_eq_nil_iff.mpr hall]
      simp [hself]

/-- C8, witness: granting org_teacher in organization 2 twice to user 1
starting from an empty table. -/
theorem grant_role_uniqueness_witness :
    assign_user_role [] 1 "org_teacher" (Option.some 2) Option.none
      = .ok (⟨1, "org_teacher", Option.some 2, Option.none⟩,
          [⟨1, "org_teacher", Option.some 2, Option.none⟩]) ∧
    assign_user_role [⟨1, "org_teacher", Option.some 2, Option.none⟩]
        1 "org_teacher" (Option.some 2) Option.none = .error .conflict ∧
    (([] ++ [(⟨1, "org_teacher", Option.some 2, Option.none⟩ : UserRole)]).filter
        (matchesTriple 1 "org_teacher" (Option.some 2))).length = 1 :=
  (grant_role_uniqueness [] 1 "org_teacher" (Option.some 2) Option.none).2 rfl

/-- C9.  The role-membership check compares scopes exactly: whenever no
assignment of the user for the role carries precisely the queried scope,
the check is false.  In particular a role granted for scope S1 never
satisfies a check for a different scope S2, and a role granted with a
null scope never satisfies a check against a non-null scope. -/
theorem role_scope_exact_match (roles : List UserRole) (user_id : Nat)
    (role : String) (scope : Option Nat)
    (h : ∀ r ∈ roles, r.user_id = user_id → r.role = role →
      r.organization_id ≠ scope) :
    user_has_role roles user_id role scope = false := by
  rw [user_has_role, List.any_eq_false]
  intro r hr
  rw [matchesTriple]
  simp only [Bool.and_eq_true, beq_iff_eq]
  rintro ⟨⟨hu, hrole⟩, hs⟩
  exact h r hr hu hrole hs

/-- C9, witness: an org_teacher grant scoped to organization 2 does not
satisfy a check for organization 3, and a guardian grant with null scope
does not satisfy a check scoped to organization 2. -/
theorem role_scope_exact_match_witness :
    user_has_role [⟨1, "org_teacher", Option.some 2, Option.none⟩]
      1 "org_teacher" (Option.some 3) = false ∧
    user_has_role [⟨1, "guardian", Option.none, Option.none⟩]
      1 "guardian" (Option.some 2) = false :=
  ⟨role_scope_exact_match [⟨1, "org_teacher", Option.some 2, Option.none⟩]
      1 "org_teacher" (Option.some 3) (by decide),
   role_scope_exact_match [⟨1, "guardian", Option.none, Option.none⟩]
      1 "guardian" (Option.some 2) (by decide)⟩

/-! ## Grading bounds (claim C10) -/

/-- Invariant of the grading loop: starting from an accumulator whose
earned points are non-negative and at most its total, and with every
quiz-question point value non-negative, the fold keeps earned points
non-negative and bounded by the total, because a question's points are
added to earned only in the same step that adds them to the total. -/
theorem gradeFold_bounds (qqs : List QuizQuestion)
    (h : ∀ qq ∈ qqs, 0 ≤ qq.points) (answers : List SubmittedAnswer)
    (acc : GradeAcc) (h0 : 0 ≤ acc.earned_points)
    (h1 : acc.earned_points ≤ acc.total_points) :
    0 ≤ (answers.foldl (gradeOne qqs) acc).earned_points ∧
    (answers.foldl (gradeOne qqs) acc).earned_points ≤
      (answers.foldl (gradeOne qqs) acc).total_points := by
  induction answers generalizing acc with
  | nil => exact ⟨h0, h1⟩
  | cons a as ih =>
      rw [List.foldl_cons]
      cases hm : matchedQuestion qqs a with
      | none =>
          have hg : gradeOne qqs acc a = acc := by simp [gradeOne, hm]
          rw [hg]
          exact ih acc h0 h1
      | some qq =>
          have hqq : qq ∈ qqs := List.mem_of_find?_eq_some hm
          have hpts : 0 ≤ qq.points := h qq hqq
          have hg : gradeOne qqs acc a =
              { total_points := acc.total_points + qq.points
                earned_points := acc.earned_points +
                  (if isCorrectAnswer qq.question a.answer then qq.points else 0)
                graded_answers := acc.graded_answers ++ [gradedAnswerOf qq a] } := by
            simp [gradeOne, hm]
          rw [hg]
          refine ih _ ?_ ?_
          · refine add_nonneg h0 ?_
            split
            · exact hpts
            · exact le_refl 0
          · refine add_le_add h1 ?_
            split
            · exact le_refl qq.points
            · exact hpts

/-- Bounds of the final percentage: with earned between 0 and total, the
percentage lies between 0 and 100; when total is not positive the code
yields 0. -/
theorem gradePercentage_bounds (e t : Int) (h0 : 0 ≤ e) (h1 : e ≤ t) :
    0 ≤ gradePercentage e t ∧ gradePercentage e t ≤ 100 := by
  unfold gradePercentage
  split
  · rename_i htpos
    have htQ : (0 : Rat) < (t : Int) := by exact_mod_cast htpos
    have heQ : (0 : Rat) ≤ (e : Int) := by exact_mod_cast h0
    have hetQ : ((e : Int) : Rat) ≤ ((t : Int) : Rat) := by exact_mod_cast h1
    constructor
    · exact mul_nonneg (div_nonneg heQ htQ.le) (by norm_num)
    · have hdiv : ((e : Int) : Rat) / ((t : Int) : Rat) ≤ 1 :=
        (div_le_one htQ).mpr hetQ
      calc ((e : Int) : Rat) / ((t : Int) : Rat) * 100
          ≤ 1 * 100 := mul_le_mul_of_nonneg_right hdiv (by norm_num)
        _ = 100 := by norm_num
  · norm_num

/-- C10.  With every quiz-question point value non-negative, a graded
submission's score never exceeds its total possible points and the
computed percentage lies between 0 and 100 inclusive. -/
theorem grading_bounds (qqs : List QuizQuestion)
    (answers : List SubmittedAnswer) (h : ∀ qq ∈ qqs, 0 ≤ qq.points) :
    0 ≤ (gradeAttempt qqs answers).earned_points ∧
    (gradeAttempt qqs answers).earned_points ≤
      (gradeAttempt qqs answers).total_points ∧
    0 ≤ gradePercentage (gradeAttempt qqs answers).earned_points
      (gradeAttempt qqs answers).total_points ∧
    gradePercentage (gradeAttempt qqs answers).earned_points
      (gradeAttempt qqs answers).total_points ≤ 100 := by
  obtain ⟨he, ht⟩ :=
    gradeFold_bounds qqs h answers ⟨0, 0, []⟩ (le_refl 0) (le_refl 0)
  obtain ⟨hp0, hp1⟩ := gradePercentage_bounds _ _ he ht
  exact ⟨he, ht, hp0, hp1⟩

/-- C10, witness: the bounds at the one-question quiz with an incorrect
answer submitted. -/
theorem grading_bounds_witness :
    0 ≤ (gradeAttempt oneQuestionQuiz [⟨6, .int 0⟩]).earned_points ∧
    (gradeAttempt oneQuestionQuiz [⟨6, .int 0⟩]).earned_points ≤
      (gradeAttempt oneQuestionQuiz [⟨6, .int 0⟩]).total_points ∧
    0 ≤ gradePercentage (gradeAttempt oneQuestionQuiz [⟨6, .int 0⟩]).earned_points
      (gradeAttempt oneQuestionQuiz [⟨6, .int 0⟩]).total_points ∧
    gradePercentage (gradeAttempt oneQuestionQuiz [⟨6, .int 0⟩]).earned_points
      (gradeAttempt oneQuestionQuiz [⟨6, .int 0⟩]).total_points ≤ 100 :=
  grading_bounds oneQuestionQuiz [⟨6, .int 0⟩] (by decide)

end SMS
